import Mathlib

/-!
Shallow embedding of the mobile-automation agent (action_executor.py, main.py,
config.py) for verification of the agent control loop and action-execution
semantics.

Python dictionaries for actions and UI elements are embedded as structures of
optional fields (`none` = key absent or key mapped to Python `None`, except for
the `text` field, where the distinction between an absent key and a key mapped
to `None` is observable and is modelled explicitly).  Floats are embedded as
rationals, `int()` truncation as `pyInt`.  Device primitives (tap, swipe,
input_text, wait) are modelled by an oracle `DeviceBehavior` giving each call's
success flag, and the executor additionally returns the trace of device calls
it issued.
-/

/-- config.py: `MAX_STEPS = 15`. -/
def MAX_STEPS : ℕ := 15

/-- config.py: `DEFAULT_WAIT_TIME = 2.0` (seconds). -/
def DEFAULT_WAIT_TIME : ℚ := 2

/-- config.py: `ACTION_HISTORY_LENGTH = 5`. -/
def ACTION_HISTORY_LENGTH : ℕ := 5

/-- A value stored under the `"text"` key of an action dictionary: either a
string or Python `None` (the LLM may emit `"text": null`).  The distinction
matters: `action_data.get("text", "")` returns `None` when the key is present
with value `None`, and slicing `None[:20]` then raises `TypeError`. -/
inductive PyTextVal
  | str (s : String)
  | noneVal
deriving DecidableEq, Repr

/-- A UI element dictionary as produced by the vision collaborator
(omniparser): the fields read by the core are `index`, `content`, `bbox`. -/
structure Element where
  index : Option ℤ
  content : Option String
  bbox : Option (List ℚ)
deriving DecidableEq, Repr

/-- An action dictionary as produced by the decision collaborator.  Fields are
the keys the repository reads (`action`, `element_index`, `text`, `start_x`,
`start_y`, `end_x`, `end_y`, `duration`, `duration_seconds`) plus
`duration_ms`, a key named by the spec's SWIPE schema which the code never
reads; `none` means the key is absent. -/
structure ActionData where
  action : Option String := none
  element_index : Option ℤ := none
  text : Option PyTextVal := none
  start_x : Option ℚ := none
  start_y : Option ℚ := none
  end_x : Option ℚ := none
  end_y : Option ℚ := none
  duration : Option ℚ := none
  duration_ms : Option ℚ := none
  duration_seconds : Option ℚ := none
deriving DecidableEq, Repr

/-- Python `omni_elements or []`: `None` and the empty list are both falsy, so
both evaluate to `[]`; a non-empty list is returned unchanged. -/
def pyOrEmpty : Option (List Element) → List Element
  | none => []
  | some l => l

/-- Python `int()` on a float/rational: truncation toward zero. -/
def pyInt (q : ℚ) : ℤ := if 0 ≤ q then ⌊q⌋ else ⌈q⌉

/-- Python f-string rendering of a possibly-`None` integer. -/
def optIntStr : Option ℤ → String
  | none => "None"
  | some i => toString i

/-- Python f-string rendering of a possibly-`None` number. -/
def optRatStr : Option ℚ → String
  | none => "None"
  | some q => toString q

/-- Python f-string rendering of a possibly-`None` string. -/
def optStrStr : Option String → String
  | none => "None"
  | some s => s

/-- `next((e for e in (omni_elements or []) if e.get('index') == idx), None)`:
first element whose `index` field equals `idx` (Python `==`, so `None == None`
matches an element with no `index` key when `idx` is `None`). -/
def findByIdx (els : List Element) (idx : Option ℤ) : Option Element :=
  els.find? (fun e => e.index == idx)

/-- `action_data.get("text")`: `None` when the key is absent or mapped to
Python `None`, otherwise the string. -/
def getTextOpt : Option PyTextVal → Option String
  | none => none
  | some .noneVal => none
  | some (.str s) => some s

/-- Python `repr` of a `"text"` value, used inside `str(action_data)`. -/
def pyReprTextVal : PyTextVal → String
  | .str s => "'" ++ s ++ "'"
  | .noneVal => "None"

/-- One `'key': value` entry of a Python dict rendering. -/
def dictEntry (k v : String) : String := "'" ++ k ++ "': " ++ v

/-- Models `str(action_data)`: the raw structural dump of the action dict used
as the summarizer's fallback.  Only present keys are rendered; key order
follows the fixed field order of the embedding. -/
def strActionData (a : ActionData) : String :=
  let entries :=
    (match a.action with | none => [] | some s => [dictEntry "action" ("'" ++ s ++ "'")]) ++
    (match a.element_index with | none => [] | some i => [dictEntry "element_index" (toString i)]) ++
    (match a.text with | none => [] | some v => [dictEntry "text" (pyReprTextVal v)]) ++
    (match a.start_x with | none => [] | some q => [dictEntry "start_x" (toString q)]) ++
    (match a.start_y with | none => [] | some q => [dictEntry "start_y" (toString q)]) ++
    (match a.end_x with | none => [] | some q => [dictEntry "end_x" (toString q)]) ++
    (match a.end_y with | none => [] | some q => [dictEntry "end_y" (toString q)]) ++
    (match a.duration with | none => [] | some q => [dictEntry "duration" (toString q)]) ++
    (match a.duration_ms with | none => [] | some q => [dictEntry "duration_ms" (toString q)]) ++
    (match a.duration_seconds with | none => [] | some q => [dictEntry "duration_seconds" (toString q)])
  "\x7b" ++ String.intercalate ", " entries ++ "\x7d"

/-- The body of `summarize_action`'s `try` block, with the one reachable
exception made explicit: in the `INPUT_TEXT` branch, `action_data.get("text",
"")` yields `None` when the key is present with value `None`, and `text[:20]`
then raises `TypeError` (caught by the caller).  All other branches only
format values with f-strings and cannot raise. -/
def summarizeCore (a : ActionData) (omni : Option (List Element)) : Except String String :=
  let actionType := a.action
  let summary := "Action: " ++ optStrStr actionType
  if actionType = some "TAP" then
    let idx := a.element_index
    let target := findByIdx (pyOrEmpty omni) idx
    let content :=
      match target with
      | some e => "'" ++ (((match e.content with | none => "N/A" | some s => s).take 20).trim) ++ "'"
      | none => "'Element not found'"
    .ok (summary ++ " (Index: " ++ optIntStr idx ++ ", Content: " ++ content ++ ")")
  else if actionType = some "INPUT_TEXT" then
    match a.text with
    | some .noneVal => .error "TypeError: NoneType object is not subscriptable"
    | t =>
      let text := match t with | some (.str s) => s | _ => ""
      let idxStr := match a.element_index with | some i => toString i | none => "N/A"
      .ok (summary ++ " (Text: '" ++ text.take 20 ++ "...', Index: " ++ idxStr ++ ")")
  else if actionType = some "SWIPE" then
    .ok (summary ++ " (From: (" ++ optRatStr a.start_x ++ "," ++ optRatStr a.start_y ++
         ") To: (" ++ optRatStr a.end_x ++ "," ++ optRatStr a.end_y ++ "))")
  else if actionType = some "WAIT" then
    .ok (summary ++ " (" ++ optRatStr a.duration_seconds ++ "s)")
  else
    .ok summary

/-- action_executor.py `summarize_action`: the `try` body, with any internal
exception caught and replaced by the raw dump `str(action_data)`. -/
def summarize_action (a : ActionData) (omni : Option (List Element)) : String :=
  match summarizeCore a omni with
  | .ok s => s
  | .error _ => strActionData a

/-- One primitive call on the device collaborator (ADBController). -/
inductive DeviceCall
  | tap (x y : ℤ)
  | swipe (x1 y1 x2 y2 : ℤ) (durationMs : ℚ)
  | inputText (s : String)
  | wait (seconds : ℚ)
deriving DecidableEq, Repr

/-- Oracle for the success flag each device primitive returns (the real
ADBController returns `False` on a caught transport exception). -/
structure DeviceBehavior where
  tapOk : ℤ → ℤ → Bool
  swipeOk : ℤ → ℤ → ℤ → ℤ → ℚ → Bool
  inputTextOk : String → Bool

/-- Midpoint-of-bbox tap coordinates:
`tap_x = int(((bbox[0]+bbox[2])/2) * width)`, likewise for y. -/
def tapPoint (b0 b1 b2 b3 : ℚ) (width height : ℤ) : ℤ × ℤ :=
  (pyInt ((b0 + b2) / 2 * width), pyInt ((b1 + b3) / 2 * height))

/-- The common tail of `execute_action` after the per-kind dispatch: after a
successful non-WAIT/non-DONE action an extra settle `wait(DEFAULT_WAIT_TIME)`
is issued; both the `if not success` branch and the fall-through return
`True`. -/
def finishTail (actionType : String) (success : Bool) (calls : List DeviceCall) :
    Bool × List DeviceCall :=
  let calls :=
    if success && actionType != "WAIT" && actionType != "DONE" then
      calls ++ [DeviceCall.wait DEFAULT_WAIT_TIME]
    else calls
  (true, calls)

/-- The per-kind `if/elif` dispatch inside `execute_action`'s `try` block,
reached after the missing-kind and stale-element pre-checks. -/
def executeDispatch (actionType : String) (a : ActionData) (adb : DeviceBehavior)
    (width height : ℤ) (els : List Element) : Bool × List DeviceCall :=
  if actionType = "TAP" then
    match findByIdx els a.element_index with
    | none => (true, [])
    | some target =>
      match target.bbox with
      | some [b0, b1, b2, b3] =>
        let p := tapPoint b0 b1 b2 b3 width height
        let success := adb.tapOk p.1 p.2
        finishTail actionType success [DeviceCall.tap p.1 p.2]
      | _ => (true, [])
  else if actionType = "INPUT_TEXT" then
    match getTextOpt a.text with
    | none => (true, [])
    | some text =>
      match a.element_index with
      | some _ =>
        match findByIdx els a.element_index with
        | none => (true, [])
        | some target =>
          match target.bbox with
          | some [b0, b1, b2, b3] =>
            let p := tapPoint b0 b1 b2 b3 width height
            if adb.tapOk p.1 p.2 then
              let success := adb.inputTextOk text
              finishTail actionType success
                [DeviceCall.tap p.1 p.2, DeviceCall.inputText text]
            else (true, [DeviceCall.tap p.1 p.2])
          | _ => (true, [])
      | none =>
        let success := adb.inputTextOk text
        finishTail actionType success [DeviceCall.inputText text]
  else if actionType = "SCROLL_DOWN" then
    let startX := Int.fdiv width 2
    let startY := pyInt ((height : ℚ) * 0.8)
    let endY := pyInt ((height : ℚ) * 0.2)
    let success := adb.swipeOk startX startY startX endY 400
    finishTail actionType success [DeviceCall.swipe startX startY startX endY 400]
  else if actionType = "SCROLL_UP" then
    let startX := Int.fdiv width 2
    let startY := pyInt ((height : ℚ) * 0.2)
    let endY := pyInt ((height : ℚ) * 0.8)
    let success := adb.swipeOk startX startY startX endY 400
    finishTail actionType success [DeviceCall.swipe startX startY startX endY 400]
  else if actionType = "SWIPE" then
    match a.start_x, a.start_y, a.end_x, a.end_y with
    | some sx, some sy, some ex, some ey =>
      let duration := a.duration.getD 300
      let p1x := pyInt (sx * width)
      let p1y := pyInt (sy * height)
      let p2x := pyInt (ex * width)
      let p2y := pyInt (ey * height)
      let success := adb.swipeOk p1x p1y p2x p2y duration
      finishTail actionType success [DeviceCall.swipe p1x p1y p2x p2y duration]
    | _, _, _, _ => (true, [])
  else if actionType = "WAIT" then
    let duration := a.duration_seconds.getD DEFAULT_WAIT_TIME
    finishTail actionType true [DeviceCall.wait duration]
  else if actionType = "DONE" then (false, [])
  else (true, [])

/-- action_executor.py `execute_action`: returns the continue/stop flag and
the trace of device-collaborator calls issued.  `if not action_type` stops for
a missing (or `None`-valued) key and for the falsy empty string; the
stale-element pre-check for TAP/INPUT_TEXT with a supplied `element_index`
returns `True` without touching the device. -/
def execute_action (a : ActionData) (adb : DeviceBehavior) (dims : ℤ × ℤ)
    (omni : Option (List Element)) : Bool × List DeviceCall :=
  let els := pyOrEmpty omni
  match a.action with
  | none => (false, [])
  | some actionType =>
    if actionType = "" then (false, [])
    else if (actionType = "TAP" ∨ actionType = "INPUT_TEXT") ∧ a.element_index ≠ none
        ∧ findByIdx els a.element_index = none then (true, [])
    else executeDispatch actionType a adb dims.1 dims.2 els

/-- One entry of main.py's `action_history`. -/
structure HistoryEntry where
  step : ℕ
  summary : String
  reasoning : String
  action_data : ActionData
deriving DecidableEq, Repr

/-- Python slice `l[-K:]` (last `K` elements for `K ≥ 1`; for `K = 0` the
slice `l[0:]` is the whole list). -/
def pySliceLast (l : List α) (K : ℕ) : List α :=
  if K = 0 then l else l.drop (l.length - K)

/-- main.py lines 111-113: `action_history.append(entry)` followed by
`action_history = action_history[-config.ACTION_HISTORY_LENGTH:]`. -/
def appendBounded (h : List HistoryEntry) (e : HistoryEntry) : List HistoryEntry :=
  pySliceLast (h ++ [e]) ACTION_HISTORY_LENGTH

/-- main.py line 95: the loop-detection comparison
`current_action_summary == last_action_summary` (`str == None` is `False`,
so the very first step never flags). -/
def loopFlagged (lastSummary : Option String) (summ : String) : Bool :=
  lastSummary == some summ

/-- Observable events of one run of the agent loop, indexed by the 1-based
step number (`current_step`). -/
inductive Event
  | screenshotCall (step : ℕ) (ok : Bool)
  | visionCall (step : ℕ)
  | decisionCall (step : ℕ)
  | loopFlag (step : ℕ)
  | executeCall (step : ℕ)
  | histAppend (step : ℕ)
deriving DecidableEq, Repr

/-- Terminal state of the agent loop (§4.3 of the spec): screenshot failure,
decision failure, executor-signalled stop (`break` on `should_continue ==
False`), or the `for`-loop's `else` clause after `MAX_STEPS` iterations. -/
inductive Terminal
  | failureScreenshot (step : ℕ)
  | failureDecision (step : ℕ)
  | executorStop (step : ℕ)
  | maxSteps
deriving DecidableEq, Repr

/-- Result of a run: terminal state, final `action_history`, the event trace,
and the number of steps whose action was executed. -/
structure RunResult where
  terminal : Terminal
  history : List HistoryEntry
  events : List Event
  stepsExecuted : ℕ
deriving DecidableEq, Repr

/-- The external collaborators of one run, each indexed by the 1-based step
at which it is consulted: the device's screenshot success, the vision
collaborator's element list (`none` = failure, §6), the decision
collaborator's action/reasoning (`none` = failure), the device-call success
oracle, and the cached screen dimensions. -/
structure Collaborators where
  screenshotOk : ℕ → Bool
  omniparser : ℕ → Option (List Element)
  llm : ℕ → Option (ActionData × String)
  adb : DeviceBehavior
  dims : ℤ × ℤ

/-- main.py's automation loop from the state (`last_action_summary`,
`action_history`) at 1-based step `currentStep`, with `remaining` iterations
of `range(MAX_STEPS)` left.  Step order is that of the source: screenshot
(failure breaks), vision analysis (failure tolerated as `None` elements),
decision request (failure breaks), loop-detection comparison, execution,
history append and truncation, then the `should_continue` check. -/
def runFrom (C : Collaborators) (lastSummary : Option String)
    (history : List HistoryEntry) (currentStep : ℕ) : ℕ → RunResult
  | 0 => ⟨.maxSteps, history, [], 0⟩
  | remaining + 1 =>
    if C.screenshotOk currentStep = false then
      ⟨.failureScreenshot currentStep, history, [.screenshotCall currentStep false], 0⟩
    else
      let omni := C.omniparser currentStep
      let ev0 := [Event.screenshotCall currentStep true, Event.visionCall currentStep,
                  Event.decisionCall currentStep]
      match C.llm currentStep with
      | none => ⟨.failureDecision currentStep, history, ev0, 0⟩
      | some (act, reasoning) =>
        let summ := summarize_action act omni
        let flagEv : List Event :=
          if loopFlagged lastSummary summ then [Event.loopFlag currentStep] else []
        let cont := (execute_action act C.adb C.dims omni).1
        let entry : HistoryEntry := ⟨currentStep, summ, reasoning, act⟩
        let history' := appendBounded history entry
        let evStep := ev0 ++ flagEv ++ [Event.executeCall currentStep, Event.histAppend currentStep]
        if cont = false then
          ⟨.executorStop currentStep, history', evStep, 1⟩
        else
          let rest := runFrom C (some summ) history' (currentStep + 1) remaining
          ⟨rest.terminal, rest.history, evStep ++ rest.events, rest.stepsExecuted + 1⟩

/-- main.py `main()`'s automation loop: empty history, no previous summary,
step 1, `range(MAX_STEPS)`. -/
def run (C : Collaborators) : RunResult := runFrom C none [] 1 MAX_STEPS

/-! Concrete fixtures used to instantiate the theorems below. -/

/-- A device on which every primitive call succeeds. -/
def adbAllOk : DeviceBehavior := ⟨fun _ _ => true, fun _ _ _ _ _ => true, fun _ => true⟩

/-- A device on which every primitive call fails. -/
def adbAllFail : DeviceBehavior := ⟨fun _ _ => false, fun _ _ _ _ _ => false, fun _ => false⟩

/-- A "Submit" button at normalized bbox [0.1, 0.2, 0.5, 0.6] with index 1. -/
def submitEl : Element := ⟨some 1, some "Submit", some [1/10, 1/5, 1/2, 3/5]⟩

/-- A TAP action targeting element index 1. -/
def tapSubmitA : ActionData := { action := some "TAP", element_index := some 1 }

/-- A WAIT action with an explicit 2-second duration. -/
def waitA : ActionData := { action := some "WAIT", duration_seconds := some 2 }

/-- A run in which every collaborator succeeds on every step and the decision
collaborator always returns the same WAIT action. -/
def allOkWaitC : Collaborators :=
  ⟨fun _ => true, fun _ => some [], fun _ => some (waitA, "waiting"), adbAllOk, (1000, 2000)⟩

@[simp] lemma finishTail_fst (t : String) (s : Bool) (c : List DeviceCall) :
    (finishTail t s c).1 = true := rfl

/-- Claim C2: for a TAP action whose `element_index` resolves to an element
with a 4-component bbox `[b0, b1, b2, b3]` on a `w × h` screen, the first
device call issued by `execute_action` is a tap at exactly
`(int(((b0+b2)/2) * w), int(((b1+b3)/2) * h))`. -/
theorem C2_tap_pixel (a : ActionData) (adb : DeviceBehavior) (w h : ℤ)
    (omni : Option (List Element)) (i : ℤ) (e : Element) (b0 b1 b2 b3 : ℚ)
    (hact : a.action = some "TAP")
    (_hidx : a.element_index = some i)
    (hfind : findByIdx (pyOrEmpty omni) a.element_index = some e)
    (hbbox : e.bbox = some [b0, b1, b2, b3]) :
    (execute_action a adb (w, h) omni).2.head? =
      some (DeviceCall.tap (pyInt ((b0 + b2) / 2 * w)) (pyInt ((b1 + b3) / 2 * h))) := by
  unfold execute_action
  rw [hact]
  dsimp only
  rw [if_neg (by simp)]
  rw [if_neg (by rintro ⟨-, -, hnone⟩; rw [hfind] at hnone; cases hnone)]
  unfold executeDispatch
  rw [if_pos rfl, hfind]
  dsimp only
  rw [hbbox]
  simp only [finishTail, tapPoint]
  split <;> rfl

/-- Claim C2 witness: the spec's concrete instance — bbox `[0.1, 0.2, 0.5,
0.6]` on a `1000 × 2000` screen yields tap pixel `(300, 800)`. -/
theorem C2_tap_pixel_witness :
    (execute_action tapSubmitA adbAllOk (1000, 2000) (some [submitEl])).2.head? =
      some (DeviceCall.tap 300 800) := by
  have h := C2_tap_pixel tapSubmitA adbAllOk 1000 2000 (some [submitEl]) 1 submitEl
    (1/10) (1/5) (1/2) (3/5) rfl rfl rfl rfl
  rw [h]
  norm_num [pyInt]

/-- Claim C1 counterexample: an action dictionary whose `action` key is
present but holds the empty string.  Python's `if not action_type` treats the
falsy empty string like a missing key, so `execute_action` returns
`continue=false` although the kind is neither `DONE` nor missing — refuting
the claimed iff as stated. -/
theorem C1_counterexample :
    (execute_action { action := some "" } adbAllOk (1000, 2000) none).1 = false ∧
    ({ action := some "" } : ActionData).action ≠ none ∧
    ({ action := some "" } : ActionData).action ≠ some "DONE" := by
  refine ⟨rfl, ?_, ?_⟩ <;> simp

/-- Claim C1 (amended): `execute_action` returns `continue=false` if and only
if the `action` kind field is missing (or `None`-valued), is the falsy empty
string, or is `DONE`; every other outcome — unknown kinds, device-primitive
failures, missing required fields, stale element indices — returns
`continue=true`. -/
lemma executeDispatch_fst (t : String) (a : ActionData) (adb : DeviceBehavior)
    (w h : ℤ) (els : List Element) (hne : t ≠ "DONE") :
    (executeDispatch t a adb w h els).1 = true := by
  unfold executeDispatch
  split_ifs with h1 h2 h3 h4 h5 h6 h7 <;>
    first
      | exact absurd h7 hne
      | (repeat' (first | split | dsimp only)) <;> rfl

theorem C1_stop_iff (a : ActionData) (adb : DeviceBehavior) (dims : ℤ × ℤ)
    (omni : Option (List Element)) :
    (execute_action a adb dims omni).1 = false ↔
      (a.action = none ∨ a.action = some "" ∨ a.action = some "DONE") := by
  unfold execute_action
  cases ha : a.action with
  | none => simp
  | some t =>
    dsimp only
    by_cases h0 : t = ""
    · subst h0; simp
    · rw [if_neg h0]
      by_cases hpre : (t = "TAP" ∨ t = "INPUT_TEXT") ∧ a.element_index ≠ none
          ∧ findByIdx (pyOrEmpty omni) a.element_index = none
      · rw [if_pos hpre]
        rcases hpre.1 with h | h <;> subst h <;> simp
      · rw [if_neg hpre]
        by_cases hd : t = "DONE"
        · subst hd
          unfold executeDispatch
          simp
        · have hfst := executeDispatch_fst t a adb dims.1 dims.2 (pyOrEmpty omni) hd
          simp [hfst, h0, hd]

/-- Claim C3: a TAP or INPUT_TEXT action whose supplied `element_index`
matches no element's index returns `continue=true` with zero device calls. -/
theorem C3_stale_index_noop (a : ActionData) (adb : DeviceBehavior) (dims : ℤ × ℤ)
    (omni : Option (List Element)) (i : ℤ)
    (hact : a.action = some "TAP" ∨ a.action = some "INPUT_TEXT")
    (hidx : a.element_index = some i)
    (habsent : ∀ e ∈ pyOrEmpty omni, e.index ≠ some i) :
    execute_action a adb dims omni = (true, []) := by
  have hfind : findByIdx (pyOrEmpty omni) a.element_index = none := by
    rw [hidx, findByIdx, List.find?_eq_none]
    intro e he
    simpa using habsent e he
  unfold execute_action
  rcases hact with h | h <;> rw [h] <;> dsimp only <;>
    rw [if_neg (by simp), if_pos ⟨by simp, by simp [hidx], hfind⟩]

/-- Claim C3 witness: tapping stale index 99 against a one-element snapshot
(index 1) is a pure no-op with `continue=true`. -/
theorem C3_stale_index_noop_witness :
    execute_action { action := some "TAP", element_index := some 99 } adbAllOk (1000, 2000)
      (some [submitEl]) = (true, []) := by
  refine C3_stale_index_noop _ adbAllOk (1000, 2000) (some [submitEl]) 99 (Or.inl rfl) rfl ?_
  intro e he
  simp only [pyOrEmpty, List.mem_singleton] at he
  subst he
  simp [submitEl]

/-- Claim C6: `summarize_action` is a total deterministic function into
strings; when the per-kind formatting raises internally (`summarizeCore`
returns an error) it falls back to the raw dump `str(action_data)`, and
otherwise returns the formatted summary. -/
theorem C6_summarize_total (a : ActionData) (omni : Option (List Element)) :
    (∀ s, summarizeCore a omni = Except.ok s → summarize_action a omni = s) ∧
    (∀ m, summarizeCore a omni = Except.error m → summarize_action a omni = strActionData a) := by
  constructor <;> intro v hv <;> unfold summarize_action <;> rw [hv]

/-- An INPUT_TEXT action whose `text` key is present but holds Python `None`:
the one input on which the summarizer's `try` body raises. -/
def inputTextNoneA : ActionData := { action := some "INPUT_TEXT", text := some PyTextVal.noneVal }

/-- Claim C6 witness: on the exception-raising input the summarizer returns
exactly the raw dump of the action dictionary. -/
theorem C6_summarize_total_witness :
    summarize_action inputTextNoneA none = strActionData inputTextNoneA :=
  (C6_summarize_total inputTextNoneA none).2
    "TypeError: NoneType object is not subscriptable" rfl

/-- Reduction of `execute_action` on a SWIPE action to the four-coordinate
case split of the SWIPE branch. -/
lemma execute_swipe_eq (a : ActionData) (adb : DeviceBehavior) (w h : ℤ)
    (omni : Option (List Element)) (hact : a.action = some "SWIPE") :
    execute_action a adb (w, h) omni =
      match a.start_x, a.start_y, a.end_x, a.end_y with
      | some sx, some sy, some ex, some ey =>
        finishTail "SWIPE"
          (adb.swipeOk (pyInt (sx * w)) (pyInt (sy * h)) (pyInt (ex * w)) (pyInt (ey * h))
            (a.duration.getD 300))
          [DeviceCall.swipe (pyInt (sx * w)) (pyInt (sy * h)) (pyInt (ex * w)) (pyInt (ey * h))
            (a.duration.getD 300)]
      | _, _, _, _ => (true, []) := by
  unfold execute_action
  rw [hact]
  dsimp only
  rw [if_neg (by simp), if_neg (by rintro ⟨(h | h), -, -⟩ <;> simp at h)]
  unfold executeDispatch
  rw [if_neg (by decide), if_neg (by decide), if_neg (by decide), if_neg (by decide),
    if_pos rfl]

/-- Claim C9 counterexample: a SWIPE action carrying `duration_ms = 500` (and
no `duration` key) is issued with the default duration 300, not 500 — the code
reads the key `"duration"`, not `"duration_ms"` as the claim states. -/
theorem C9_counterexample :
    ({ action := some "SWIPE", start_x := some 0, start_y := some 0, end_x := some 1,
       end_y := some 1, duration_ms := some 500 } : ActionData).duration_ms = some 500 ∧
    (execute_action
        { action := some "SWIPE", start_x := some 0, start_y := some 0, end_x := some 1,
          end_y := some 1, duration_ms := some 500 } adbAllFail (1000, 2000) none).2 =
      [DeviceCall.swipe 0 0 1000 2000 300] ∧
    (300 : ℚ) ≠ 500 := by
  refine ⟨rfl, ?_, by norm_num⟩
  rw [execute_swipe_eq _ adbAllFail 1000 2000 none rfl]
  dsimp only
  unfold finishTail adbAllFail
  norm_num [pyInt]

/-- Claim C9 (amended): for a SWIPE action, if any of the four normalized
coordinates is missing the executor is a no-op returning `continue=true` with
no device call; if all four are present it issues a swipe from
`(int(start_x*width), int(start_y*height))` to `(int(end_x*width),
int(end_y*height))` with the duration taken from the action's `duration` key
(not `duration_ms`), defaulting to 300 ms when absent, and returns
`continue=true`. -/
theorem C9_swipe (a : ActionData) (adb : DeviceBehavior) (w h : ℤ)
    (omni : Option (List Element)) (hact : a.action = some "SWIPE") :
    ((a.start_x = none ∨ a.start_y = none ∨ a.end_x = none ∨ a.end_y = none) →
        execute_action a adb (w, h) omni = (true, [])) ∧
    (∀ sx sy ex ey, a.start_x = some sx → a.start_y = some sy → a.end_x = some ex →
        a.end_y = some ey →
        (execute_action a adb (w, h) omni).1 = true ∧
        (execute_action a adb (w, h) omni).2.head? =
          some (DeviceCall.swipe (pyInt (sx * w)) (pyInt (sy * h)) (pyInt (ex * w))
            (pyInt (ey * h)) (a.duration.getD 300))) := by
  rw [execute_swipe_eq a adb w h omni hact]
  constructor
  · rintro (hn | hn | hn | hn)
    · rw [hn]
    · rcases a.start_x with _ | sx <;> rw [hn]
    · rcases a.start_x with _ | sx <;> rcases a.start_y with _ | sy <;> rw [hn]
    · rcases a.start_x with _ | sx <;> rcases a.start_y with _ | sy <;>
        rcases a.end_x with _ | ex <;> rw [hn]
  · intro sx sy ex ey h1 h2 h3 h4
    rw [h1, h2, h3, h4]
    refine ⟨rfl, ?_⟩
    unfold finishTail
    dsimp only
    split <;> rfl

/-- A fully specified SWIPE action with an explicit `duration` of 250 ms. -/
def swipeWitA : ActionData :=
  { action := some "SWIPE", start_x := some 0, start_y := some 0, end_x := some 1,
    end_y := some 1, duration := some 250 }

/-- Claim C9 witness: a SWIPE from (0,0) to (1,1) on a 1000x2000 screen with
`duration = 250` is issued as a device swipe from pixel (0,0) to (1000,2000)
with duration 250. -/
theorem C9_swipe_witness :
    (execute_action swipeWitA adbAllOk (1000, 2000) none).1 = true ∧
    (execute_action swipeWitA adbAllOk (1000, 2000) none).2.head? =
      some (DeviceCall.swipe 0 0 1000 2000 250) := by
  have h := (C9_swipe swipeWitA adbAllOk 1000 2000 none rfl).2 0 0 1 1 rfl rfl rfl rfl
  refine ⟨h.1, ?_⟩
  rw [h.2]
  norm_num [pyInt, swipeWitA]

/-- Claim C10: passing `elements = None` and `elements = []` (the empty list)
to the summarizer and the executor is observationally identical — Python's
`omni_elements or []` maps both to the empty list — so the loop's passing of
`None` after a vision failure is equivalent to an empty element set. -/
theorem C10_none_empty (a : ActionData) (adb : DeviceBehavior) (dims : ℤ × ℤ) :
    summarize_action a none = summarize_action a (some []) ∧
    execute_action a adb dims none = execute_action a adb dims (some []) :=
  ⟨rfl, rfl⟩

lemma pySliceLast_length_le (l : List α) (K : ℕ) (hK : K ≠ 0) :
    (pySliceLast l K).length ≤ K := by
  unfold pySliceLast
  rw [if_neg hK, List.length_drop]
  omega

lemma appendBounded_length (h : List HistoryEntry) (e : HistoryEntry) :
    (appendBounded h e).length ≤ ACTION_HISTORY_LENGTH :=
  pySliceLast_length_le _ _ (by decide)

lemma runFrom_history_length (C : Collaborators) (ls : Option String)
    (h : List HistoryEntry) (cs rem : ℕ) (hh : h.length ≤ ACTION_HISTORY_LENGTH) :
    (runFrom C ls h cs rem).history.length ≤ ACTION_HISTORY_LENGTH := by
  induction rem generalizing ls h cs with
  | zero => exact hh
  | succ k ih =>
    rw [runFrom]
    split
    · exact hh
    · split
      · exact hh
      · dsimp only
        split
        · exact appendBounded_length _ _
        · exact ih _ _ _ (appendBounded_length _ _)

lemma pySliceLast_append (l m : List α) (K : ℕ) :
    pySliceLast (pySliceLast l K ++ m) K = pySliceLast (l ++ m) K := by
  unfold pySliceLast
  rcases Nat.eq_zero_or_pos K with hK | hK
  · subst hK; simp
  · rw [if_neg (by omega), if_neg (by omega), if_neg (by omega)]
    by_cases hl : l.length ≤ K
    · have h0 : l.length - K = 0 := by omega
      rw [h0, List.drop_zero]
    · have hlen : (l.drop (l.length - K)).length = K := by
        rw [List.length_drop]; omega
      rw [List.length_append, List.length_append, hlen,
        List.drop_append_eq_append_drop, List.drop_append_eq_append_drop,
        List.drop_drop, hlen]
      congr 2 <;> omega

lemma appendBounded_slice (h : List HistoryEntry) (e : HistoryEntry) :
    appendBounded (pySliceLast h ACTION_HISTORY_LENGTH) e =
      pySliceLast (h ++ [e]) ACTION_HISTORY_LENGTH := by
  unfold appendBounded
  exact pySliceLast_append h [e] ACTION_HISTORY_LENGTH

lemma foldl_appendBounded (es : List HistoryEntry) (h0 : List HistoryEntry) :
    List.foldl appendBounded (pySliceLast h0 ACTION_HISTORY_LENGTH) es =
      pySliceLast (h0 ++ es) ACTION_HISTORY_LENGTH := by
  induction es generalizing h0 with
  | nil => rw [List.foldl_nil, List.append_nil]
  | cons e es ih =>
    rw [List.foldl_cons, appendBounded_slice, ih (h0 ++ [e]), List.append_assoc,
      List.singleton_append]

/-- Claim C4: the action history the loop maintains never exceeds
`ACTION_HISTORY_LENGTH = 5` entries, whatever the collaborators do; and the
bounded-append fold over any sequence of entries keeps exactly the
most-recent five in append order — in particular after `K+1` appends the
oldest entry is dropped and the retained entries are `es.drop 1`, ordered
oldest-to-newest. -/
theorem C4_history_bounded :
    (∀ C : Collaborators, (run C).history.length ≤ ACTION_HISTORY_LENGTH) ∧
    (∀ es : List HistoryEntry,
        List.foldl appendBounded [] es = es.drop (es.length - ACTION_HISTORY_LENGTH)) := by
  constructor
  · intro C
    exact runFrom_history_length C none [] 1 MAX_STEPS (by simp)
  · intro es
    have h := foldl_appendBounded es []
    rw [show pySliceLast ([] : List HistoryEntry) ACTION_HISTORY_LENGTH = [] from rfl,
      List.nil_append] at h
    rw [h]
    unfold pySliceLast
    rw [if_neg (by decide)]

lemma runFrom_flag_implies_exec (C : Collaborators) (ls : Option String)
    (h : List HistoryEntry) (cs rem n : ℕ)
    (hmem : Event.loopFlag n ∈ (runFrom C ls h cs rem).events) :
    Event.executeCall n ∈ (runFrom C ls h cs rem).events := by
  induction rem generalizing ls h cs with
  | zero => simp [runFrom] at hmem
  | succ k ih =>
    rw [runFrom] at hmem ⊢
    by_cases hs : C.screenshotOk cs = false
    · rw [if_pos hs] at hmem ⊢
      simp at hmem
    · rw [if_neg hs] at hmem ⊢
      rcases hl : C.llm cs with _ | ⟨act, r⟩ <;> simp only [hl] at hmem ⊢
      · simp at hmem
      · by_cases hc : (execute_action act C.adb C.dims (C.omniparser cs)).1 = false
        · rw [if_pos hc] at hmem ⊢
          by_cases hf : loopFlagged ls (summarize_action act (C.omniparser cs)) = true
          · rw [if_pos hf] at hmem ⊢
            simp only [List.mem_append, List.mem_cons, List.mem_singleton,
              List.not_mem_nil] at hmem ⊢
            rcases hmem with ((h1 | h1) | h1) | (h1 | h1 | h1) <;> simp_all
          · rw [if_neg hf] at hmem ⊢
            simp only [List.mem_append, List.mem_cons, List.mem_singleton,
              List.not_mem_nil] at hmem ⊢
            rcases hmem with ((h1 | h1) | h1) | (h1 | h1 | h1) <;> simp_all
        · rw [if_neg hc] at hmem ⊢
          rw [List.mem_append] at hmem ⊢
          rcases hmem with h1 | h1
          · left
            by_cases hf : loopFlagged ls (summarize_action act (C.omniparser cs)) = true <;>
              [rw [if_pos hf] at h1 ⊢; rw [if_neg hf] at h1 ⊢] <;>
              simp only [List.mem_append, List.mem_cons, List.mem_singleton,
                List.not_mem_nil] at h1 ⊢ <;>
              simp_all
          · right
            exact ih _ _ _ h1

/-- Claim C5: the loop detector flags a step exactly when the step's summary
string equals the immediately preceding step's summary (`str == None` is
false, so with no previous summary — step 1 — it never flags), and the flag
does not alter control flow: whenever a loop-flag event occurs at a step, the
execute event for that same step also occurs. -/
theorem C5_loop_detector (last : Option String) (s : String) (C : Collaborators)
    (ls : Option String) (h : List HistoryEntry) (cs rem n : ℕ) :
    (loopFlagged last s = true ↔ last = some s) ∧
    loopFlagged none s = false ∧
    (Event.loopFlag n ∈ (runFrom C ls h cs rem).events →
      Event.executeCall n ∈ (runFrom C ls h cs rem).events) := by
  refine ⟨?_, rfl, runFrom_flag_implies_exec C ls h cs rem n⟩
  simp [loopFlagged]

/-- Claim C5 witness: in a two-step run where the decision collaborator
repeats the same WAIT action, step 2 is flagged, and the flagged step's
action is still executed. -/
theorem C5_loop_detector_witness :
    Event.executeCall 2 ∈ (runFrom allOkWaitC none [] 1 2).events :=
  (C5_loop_detector none "x" allOkWaitC none [] 1 2 2).2.2 (by decide)

lemma runFrom_steps_le (C : Collaborators) (ls : Option String) (h : List HistoryEntry)
    (cs rem : ℕ) : (runFrom C ls h cs rem).stepsExecuted ≤ rem := by
  induction rem generalizing ls h cs with
  | zero => exact Nat.le_refl 0
  | succ k ih =>
    rw [runFrom]
    split
    · exact Nat.zero_le _
    · split
      · exact Nat.zero_le _
      · dsimp only
        split
        · exact Nat.succ_le_succ (Nat.zero_le k)
        · exact Nat.succ_le_succ (ih _ _ _)

lemma runFrom_all_ok (C : Collaborators)
    (hshot : ∀ m, C.screenshotOk m = true)
    (hllm : ∀ m, C.llm m ≠ none)
    (hexec : ∀ m a r, C.llm m = some (a, r) →
        (execute_action a C.adb C.dims (C.omniparser m)).1 = true)
    (rem : ℕ) :
    ∀ ls h cs, (runFrom C ls h cs rem).terminal = Terminal.maxSteps ∧
      (runFrom C ls h cs rem).stepsExecuted = rem := by
  induction rem with
  | zero => exact fun ls h cs => ⟨rfl, rfl⟩
  | succ k ih =>
    intro ls h cs
    rw [runFrom]
    rw [if_neg (by simp [hshot cs])]
    rcases hl : C.llm cs with _ | ⟨act, r⟩
    · exact absurd hl (hllm cs)
    · simp only [hl]
      rw [if_neg (by simp [hexec cs act r hl])]
      exact ⟨(ih _ _ _).1, by
        have := (ih (some (summarize_action act (C.omniparser cs)))
          (appendBounded h ⟨cs, summarize_action act (C.omniparser cs), r, act⟩) (cs + 1)).2
        simp [this]⟩

/-- Claim C7: the agent loop never executes more than `MAX_STEPS = 15` steps,
and in every run where the screenshot and decision collaborators succeed at
each step and the executor never signals stop, the loop performs exactly
`MAX_STEPS` steps and terminates in the max-steps state. -/
theorem C7_max_steps (C : Collaborators)
    (hshot : ∀ m, C.screenshotOk m = true)
    (hllm : ∀ m, C.llm m ≠ none)
    (hexec : ∀ m a r, C.llm m = some (a, r) →
        (execute_action a C.adb C.dims (C.omniparser m)).1 = true) :
    (∀ C' : Collaborators, (run C').stepsExecuted ≤ MAX_STEPS) ∧
    (run C).terminal = Terminal.maxSteps ∧ (run C).stepsExecuted = MAX_STEPS := by
  refine ⟨fun C' => runFrom_steps_le C' none [] 1 MAX_STEPS, ?_, ?_⟩
  · exact (runFrom_all_ok C hshot hllm hexec MAX_STEPS none [] 1).1
  · exact (runFrom_all_ok C hshot hllm hexec MAX_STEPS none [] 1).2

/-- Claim C7 witness: with all collaborators succeeding and the decision
collaborator returning the identical WAIT action every step, the run
terminates in the max-steps state after exactly 15 executed steps. -/
theorem C7_max_steps_witness :
    (run allOkWaitC).terminal = Terminal.maxSteps ∧
    (run allOkWaitC).stepsExecuted = MAX_STEPS := by
  have h := C7_max_steps allOkWaitC (fun _ => rfl) (fun _ => by simp [allOkWaitC])
    (fun m a r hl => by
      simp only [allOkWaitC, Option.some.injEq, Prod.mk.injEq] at hl
      obtain ⟨ha, -⟩ := hl
      subst ha
      rfl)
  exact ⟨h.2.1, h.2.2⟩

/-- Claim C8: if screenshot acquisition fails at the current step, the loop —
whatever its state — terminates immediately in the screenshot-failure state:
the only event of the remainder of the run is the failed screenshot call (no
vision analysis, no decision request, no execution, no history append at this
or any later step), the history is unchanged, and zero further steps are
executed. -/
theorem C8_screenshot_failure (C : Collaborators) (ls : Option String)
    (h : List HistoryEntry) (cs rem : ℕ)
    (hfail : C.screenshotOk cs = false) :
    runFrom C ls h cs (rem + 1) =
      ⟨Terminal.failureScreenshot cs, h, [Event.screenshotCall cs false], 0⟩ := by
  rw [runFrom, if_pos hfail]

/-- A run whose screenshot succeeds on steps 1 and 2 and fails from step 3. -/
def shotFail3C : Collaborators :=
  ⟨fun m => decide (m < 3), fun _ => some [], fun _ => some (waitA, "waiting"), adbAllOk,
    (1000, 2000)⟩

/-- Claim C8 witness: reaching step 3 with the screenshot failing there, the
remainder of the run is exactly the failure result — one failed screenshot
event, nothing else, history untouched. -/
theorem C8_screenshot_failure_witness :
    runFrom shotFail3C none [] 3 13 =
      ⟨Terminal.failureScreenshot 3, [], [Event.screenshotCall 3 false], 0⟩ :=
  C8_screenshot_failure shotFail3C none [] 3 12 (by decide)
